import Mathlib

/-!
Shallow embedding of the Fitness Tracker API core (users, workouts,
pagination, statistics) and verification of its specified properties.
Definitions mirror the JavaScript source: controllers become functions on an
explicit store, Mongoose documents become structures with `Option` fields,
and JavaScript numeric semantics (`Math.round`, `Math.ceil`, `parseInt`,
truthiness) are made explicit over `ℚ` / `Int`.
-/

namespace FitnessTracker

/-- Model of JavaScript `Math.floor` on finite numbers
(`Rat.floor` keeps the definition kernel-computable). -/
def jsFloor (x : ℚ) : Int := x.floor

/-- Model of JavaScript `Math.round` on finite numbers: rounds half toward
positive infinity, i.e. `Math.round(x) = floor(x + 0.5)`. -/
def jsRound (x : ℚ) : Int := jsFloor (x + 1/2)

/-- Model of JavaScript `Math.ceil` on finite numbers, as `-floor(-x)`. -/
def jsCeil (x : ℚ) : Int := -jsFloor (-x)

/-- Model of JavaScript string `.toLowerCase()` for ASCII data. -/
def jsToLower (s : String) : String := ⟨s.data.map Char.toLower⟩

/-- Model of JavaScript string `.trim()`: strips whitespace at both ends. -/
def jsTrim (s : String) : String :=
  ⟨((s.data.dropWhile Char.isWhitespace).reverse.dropWhile Char.isWhitespace).reverse⟩

/-- JavaScript truthiness of an optional string field: `undefined`/`null` and
the empty string are falsy. -/
def truthyS : Option String → Bool
  | none => false
  | some s => decide (s ≠ "")

/-- JavaScript truthiness of an optional numeric field: `undefined`/`null` and
`0` are falsy. -/
def truthyQ : Option ℚ → Bool
  | none => false
  | some x => decide (x ≠ 0)

/-! ## Pagination responder (`sendPaginated` in `src/utils/apiResponse.js`) -/

/-- Pagination metadata object built by `sendPaginated`:
`meta.pagination` with current page, page size, item and page counts and
next/prev pointers (`none` models JSON `null`). -/
structure PaginationMeta where
  currentPage : Int
  itemsPerPage : Int
  totalItems : Nat
  totalPages : Int
  hasNextPage : Bool
  hasPrevPage : Bool
  nextPage : Option Int
  prevPage : Option Int
deriving DecidableEq

/-- Embedding of `sendPaginated(res, data, page, limit, total, ...)` from
`src/utils/apiResponse.js`: `totalPages = Math.ceil(total / limit)`,
`hasNextPage = page < totalPages`, `hasPrevPage = page > 1`,
`nextPage = hasNextPage ? page + 1 : null`,
`prevPage = hasPrevPage ? page - 1 : null`.
(Defined for `limit ≠ 0`; the JavaScript division is real-number division,
matched here by rational division and `Math.ceil`.) -/
def sendPaginated (page limit : Int) (total : Nat) : PaginationMeta :=
  let totalPages : Int := jsCeil ((total : ℚ) / (limit : ℚ))
  let hasNextPage : Bool := decide (page < totalPages)
  let hasPrevPage : Bool := decide (page > 1)
  { currentPage := page
    itemsPerPage := limit
    totalItems := total
    totalPages := totalPages
    hasNextPage := hasNextPage
    hasPrevPage := hasPrevPage
    nextPage := if hasNextPage then some (page + 1) else none
    prevPage := if hasPrevPage then some (page - 1) else none }

/-! ## User model (`src/models/User.js`) -/

/-- A stored User document. Optional schema fields are `Option`-valued
(`none` models an absent/undefined field); `profileCompletion` is the stored
calculated field maintained by the `pre('save')` middleware. -/
structure UserDoc where
  id : Nat
  name : Option String := none
  email : Option String := none
  age : Option ℚ := none
  weight : Option ℚ := none
  height : Option ℚ := none
  fitnessGoal : Option String := none
  activityLevel : Option String := none
  isActive : Bool := true
  profileCompletion : Int := 0
deriving DecidableEq

/-- Count of present profile fields out of the 7 tracked by the
`pre('save')` middleware (name, email, age, weight, height, fitnessGoal,
activityLevel), using JavaScript truthiness as the source does. -/
def completedFieldsCount (u : UserDoc) : Nat :=
  (if truthyS u.name then 1 else 0) +
  (if truthyS u.email then 1 else 0) +
  (if truthyQ u.age then 1 else 0) +
  (if truthyQ u.weight then 1 else 0) +
  (if truthyQ u.height then 1 else 0) +
  (if truthyS u.fitnessGoal then 1 else 0) +
  (if truthyS u.activityLevel then 1 else 0)

/-- `Math.round((completedFields / totalFields) * 100)` with `totalFields = 7`,
from the `userSchema.pre('save')` middleware. -/
def preSaveCompletion (u : UserDoc) : Int :=
  jsRound (((completedFieldsCount u : ℚ) / 7) * 100)

/-- The `pre('save')` middleware: recomputes `profileCompletion` on every
document save. -/
def userPreSave (u : UserDoc) : UserDoc :=
  { u with profileCompletion := preSaveCompletion u }

/-- Virtual `bmi`: `weight / (height/100)²` rounded to one decimal place,
`null` when weight or height is missing (or falsy). -/
def bmi (u : UserDoc) : Option ℚ :=
  if truthyQ u.weight && truthyQ u.height then
    let w := u.weight.getD 0
    let heightInMeters := u.height.getD 0 / 100
    some ((jsRound (w / (heightInMeters * heightInMeters) * 10) : ℚ) / 10)
  else none

/-- Virtual `bmiCategory`: thresholds on `bmi`; `null` when `bmi` is falsy
(absent or zero). -/
def bmiCategory (u : UserDoc) : Option String :=
  match bmi u with
  | none => none
  | some b =>
    if b = 0 then none
    else if b < 37/2 then some "Underweight"
    else if b < 25 then some "Normal weight"
    else if b < 30 then some "Overweight"
    else some "Obese"

/-! ## Workout model (`src/models/workout.js`) -/

/-- A stored Workout document. `workoutDate` is a millisecond timestamp. -/
structure WorkoutDoc where
  id : Nat
  userId : Nat
  title : String
  exerciseType : String
  duration : ℚ
  caloriesBurned : ℚ
  intensity : String
  workoutDate : Int
  completed : Bool
deriving DecidableEq

/-- The two collections of the document store. -/
structure Store where
  users : List UserDoc
  workouts : List WorkoutDoc
deriving DecidableEq

/-- `User.findById(id)`. -/
def findUserById (s : Store) (id : Nat) : Option UserDoc :=
  s.users.find? (fun u => u.id == id)

/-- `Workout.findById(id)`. -/
def findWorkoutById (s : Store) (id : Nat) : Option WorkoutDoc :=
  s.workouts.find? (fun w => w.id == id)

/-! ## User controller (`src/controllers/userController.js`) -/

/-- Request body accepted by `createUser` (only these fields are read). -/
structure CreateUserReq where
  name : String
  email : String
  age : Option ℚ := none
  weight : Option ℚ := none
  height : Option ℚ := none
  fitnessGoal : Option String := none
  activityLevel : Option String := none
deriving DecidableEq

/-- Outcome of `createUser`: 409 on duplicate email, else 201 with the
saved document. -/
inductive CreateUserResult where
  | conflict
  | created (u : UserDoc)
deriving DecidableEq

/-- `createUser`: rejects a duplicate email
(`User.findOne({email: email.toLowerCase()})`), otherwise stores the document
with `name.trim()`, `email.toLowerCase().trim()`, the schema default
`activityLevel = 'moderately_active'` when absent, and the `pre('save')`
middleware recomputing `profileCompletion`. Schema range/enum validators are
not modelled; all inputs used in the theorems below satisfy them. -/
def createUser (s : Store) (newId : Nat) (r : CreateUserReq) :
    CreateUserResult × Store :=
  match s.users.find? (fun u => u.email == some (jsToLower r.email)) with
  | some _ => (.conflict, s)
  | none =>
    let saved := userPreSave
      { id := newId
        name := some (jsTrim r.name)
        email := some (jsTrim (jsToLower r.email))
        age := r.age
        weight := r.weight
        height := r.height
        fitnessGoal := r.fitnessGoal
        activityLevel := some (match r.activityLevel with
          | some a => a
          | none => "moderately_active")
        isActive := true
        profileCompletion := 0 }
    (.created saved, { s with users := s.users ++ [saved] })

/-- Partial update body accepted by `updateUser` (`req.body`); `none` models
an absent field. -/
structure UserUpdate where
  name : Option String := none
  email : Option String := none
  age : Option ℚ := none
  weight : Option ℚ := none
  height : Option ℚ := none
  fitnessGoal : Option String := none
  activityLevel : Option String := none
  isActive : Option Bool := none
deriving DecidableEq

/-- The controller's `cleanUpdateData` step: trims `name` and
lowercases+trims `email` when they are truthy. -/
def cleanUserUpdate (upd : UserUpdate) : UserUpdate :=
  { upd with
    name := match upd.name with
      | some n => if n = "" then some n else some (jsTrim n)
      | none => none
    email := match upd.email with
      | some e => if e = "" then some e else some (jsTrim (jsToLower e))
      | none => none }

/-- `findByIdAndUpdate`: merges the provided fields into the stored document.
No document middleware runs, so `profileCompletion` is left as stored. -/
def applyUserUpdate (u : UserDoc) (upd : UserUpdate) : UserDoc :=
  { u with
    name := match upd.name with | some n => some n | none => u.name
    email := match upd.email with | some e => some e | none => u.email
    age := match upd.age with | some a => some a | none => u.age
    weight := match upd.weight with | some w => some w | none => u.weight
    height := match upd.height with | some h => some h | none => u.height
    fitnessGoal := match upd.fitnessGoal with
      | some g => some g | none => u.fitnessGoal
    activityLevel := match upd.activityLevel with
      | some a => some a | none => u.activityLevel
    isActive := match upd.isActive with | some b => b | none => u.isActive }

/-- Outcome of `updateUser`: 404, 409, or 200 with the updated document. -/
inductive UpdateUserResult where
  | notFound
  | conflict
  | updated (u : UserDoc)
deriving DecidableEq

/-- `updateUser`: 404 when the id does not resolve; 409 when a changed email
already exists; otherwise `findByIdAndUpdate` with the cleaned update data
(which does not re-run the `pre('save')` middleware). -/
def updateUser (s : Store) (id : Nat) (upd : UserUpdate) :
    UpdateUserResult × Store :=
  match findUserById s id with
  | none => (.notFound, s)
  | some u =>
    let emailConflict :=
      match upd.email with
      | none => false
      | some e =>
        if some e == u.email then false
        else (s.users.find? (fun (v : UserDoc) => v.email == some (jsToLower e))).isSome
    if emailConflict then (.conflict, s)
    else
      let u' := applyUserUpdate u (cleanUserUpdate upd)
      (.updated u',
       { s with users := s.users.map (fun (v : UserDoc) => if v.id == id then u' else v) })

/-- Outcome of `deleteUser`: 404, 409 (user still owns workouts), or 204. -/
inductive DeleteUserOutcome where
  | notFound
  | conflict (workoutCount : Nat)
  | deleted
deriving DecidableEq

/-- HTTP status code sent for each `deleteUser` outcome. -/
def deleteUserStatus : DeleteUserOutcome → Nat
  | .notFound => 404
  | .conflict _ => 409
  | .deleted => 204

/-- `deleteUser`: 404 when the id does not resolve; 409 (leaving the store
untouched) when `Workout.countDocuments({userId: id})` is positive; otherwise
`findByIdAndDelete`. -/
def deleteUser (s : Store) (id : Nat) : DeleteUserOutcome × Store :=
  match findUserById s id with
  | none => (.notFound, s)
  | some _ =>
    let workoutCount := (s.workouts.filter (fun w => w.userId == id)).length
    if workoutCount > 0 then (.conflict workoutCount, s)
    else (.deleted, { s with users := s.users.filter (fun u => !(u.id == id)) })

/-! ## Workout controller (`src/controllers/workoutController.js`) -/

/-- Request body accepted by `createWorkout`. -/
structure CreateWorkoutReq where
  userId : Nat
  title : String
  exerciseType : String
  duration : ℚ
  caloriesBurned : ℚ
  intensity : Option String := none
  workoutDate : Option Int := none
  completed : Option Bool := none
deriving DecidableEq

/-- An application error thrown with `new AppError(message, statusCode)`. -/
structure AppErr where
  message : String
  statusCode : Nat
deriving DecidableEq

/-- `createWorkout`: throws `AppError(404)` when the referenced user does not
exist (checked before any store write), otherwise stores the workout with
its defaults (`workoutDate || new Date()`, `completed` defaulting to true,
schema default `intensity = 'moderate'`). The second component is the store
after the call. -/
def createWorkout (s : Store) (newId : Nat) (now : Int) (r : CreateWorkoutReq) :
    Except AppErr WorkoutDoc × Store :=
  match findUserById s r.userId with
  | none =>
    (.error ⟨"User not found. Cannot create workout for non-existent user.", 404⟩, s)
  | some _ =>
    let w : WorkoutDoc :=
      { id := newId
        userId := r.userId
        title := r.title
        exerciseType := r.exerciseType
        duration := r.duration
        caloriesBurned := r.caloriesBurned
        intensity := (r.intensity.getD "moderate")
        workoutDate := (r.workoutDate.getD now)
        completed := (r.completed.getD true) }
    (.ok w, { s with workouts := s.workouts ++ [w] })

/-! ## Per-user statistics
(`Workout.getTotalCaloriesByUser` in `src/models/workout.js` and
`getUserStats` in `src/controllers/userController.js`) -/

/-- Result of the `getTotalCaloriesByUser` aggregation. -/
structure WorkoutTotals where
  totalCalories : ℚ
  totalWorkouts : Nat
  totalDuration : ℚ
deriving DecidableEq

/-- `Workout.getTotalCaloriesByUser(userId)`: `$match` on
`{userId, completed: true}` then `$group` summing calories, count and
duration; an empty match set yields the `result[0] || {0,0,0}` default. -/
def getTotalCaloriesByUser (ws : List WorkoutDoc) (uid : Nat) : WorkoutTotals :=
  let matched := ws.filter (fun w => w.userId == uid && w.completed)
  if matched.isEmpty then ⟨0, 0, 0⟩
  else
    ⟨(matched.map (fun w => w.caloriesBurned)).sum,
     matched.length,
     (matched.map (fun w => w.duration)).sum⟩

/-- Insert into a list kept in descending `workoutDate` order. -/
def insertByDateDesc (w : WorkoutDoc) : List WorkoutDoc → List WorkoutDoc
  | [] => [w]
  | x :: xs =>
    if x.workoutDate ≥ w.workoutDate then x :: insertByDateDesc w xs
    else w :: x :: xs

/-- `.sort({workoutDate: -1})`: stable sort by workout date, newest first. -/
def sortByDateDesc (ws : List WorkoutDoc) : List WorkoutDoc :=
  ws.foldr insertByDateDesc []

/-- Milliseconds in a day (`24 * 60 * 60 * 1000`). -/
def dayMs : Int := 86400000

/-- The statistics assembled by `getUserStats` that concern workouts
(`stats.workouts`, `stats.calories`, `stats.time`, `stats.recent`). -/
structure UserStats where
  totalWorkouts : Nat
  thisWeek : Nat
  thisMonth : Nat
  avgPerWeek : ℚ
  totalCalories : ℚ
  avgCaloriesPerWorkout : Int
  totalDuration : ℚ
  avgDurationPerWorkout : Int
  recent : List WorkoutDoc
deriving DecidableEq

/-- `getUserStats`: 404 (`none`) when the user does not resolve; otherwise
combines the `getTotalCaloriesByUser` aggregation, the last-5-workouts query
(`find({userId}).sort({workoutDate:-1}).limit(5)`, no `completed` filter) and
the 7/30-day completed-workout counts, with zero-guarded averages. -/
def getUserStats (s : Store) (uid : Nat) (now : Int) : Option UserStats :=
  match findUserById s uid with
  | none => none
  | some _ =>
    let t := getTotalCaloriesByUser s.workouts uid
    let sevenDaysAgo := now - 7 * dayMs
    let thirtyDaysAgo := now - 30 * dayMs
    let recentWorkouts :=
      (sortByDateDesc (s.workouts.filter (fun w => w.userId == uid))).take 5
    let weeklyWorkouts :=
      (s.workouts.filter (fun w =>
        w.userId == uid && sevenDaysAgo ≤ w.workoutDate && w.completed)).length
    let monthlyWorkouts :=
      (s.workouts.filter (fun w =>
        w.userId == uid && thirtyDaysAgo ≤ w.workoutDate && w.completed)).length
    some
      { totalWorkouts := t.totalWorkouts
        thisWeek := weeklyWorkouts
        thisMonth := monthlyWorkouts
        avgPerWeek := (jsRound ((monthlyWorkouts : ℚ) / 4 * 10) : ℚ) / 10
        totalCalories := t.totalCalories
        avgCaloriesPerWorkout :=
          if t.totalWorkouts > 0 then
            jsRound (t.totalCalories / (t.totalWorkouts : ℚ))
          else 0
        totalDuration := t.totalDuration
        avgDurationPerWorkout :=
          if t.totalWorkouts > 0 then
            jsRound (t.totalDuration / (t.totalWorkouts : ℚ))
          else 0
        recent := recentWorkouts }

/-! ## List queries and filters
(`getAllUsers` in `src/controllers/userController.js`,
`getAllWorkouts` in `src/controllers/workoutController.js`) -/

/-- Query-string parameters read by `getAllUsers` when building its filter. -/
structure UserListQuery where
  fitnessGoal : Option String := none
  activityLevel : Option String := none
  isActive : Option String := none
  search : Option String := none
deriving DecidableEq

/-- Case-insensitive substring test, modelling
`new RegExp(term, 'i').test(field)` for patterns without metacharacters. -/
def containsCI (hay pat : String) : Bool :=
  decide ((jsToLower pat).data <:+: (jsToLower hay).data)

/-- The Mongo filter object built by `getAllUsers`, as a predicate: exact
match on `fitnessGoal`/`activityLevel`, `isActive === 'true'` coercion, and
an `$or` name/email regex search. -/
def userMatchesFilter (q : UserListQuery) (u : UserDoc) : Bool :=
  (match q.fitnessGoal with
   | none => true
   | some g => u.fitnessGoal == some g) &&
  (match q.activityLevel with
   | none => true
   | some a => u.activityLevel == some a) &&
  (match q.isActive with
   | none => true
   | some s => u.isActive == (s == "true")) &&
  (match q.search with
   | none => true
   | some t => containsCI (u.name.getD "") t || containsCI (u.email.getD "") t)

/-- Query-string parameters read by `getAllWorkouts` when building its
filter. -/
structure WorkoutListQuery where
  userId : Option Nat := none
  exerciseType : Option String := none
  intensity : Option String := none
  completed : Option String := none
  startDate : Option Int := none
  endDate : Option Int := none
deriving DecidableEq

/-- The Mongo filter object built by `getAllWorkouts`, as a predicate:
exact matches, `completed === 'true'` coercion and an inclusive
`workoutDate` range. -/
def workoutMatchesFilter (q : WorkoutListQuery) (w : WorkoutDoc) : Bool :=
  (match q.userId with
   | none => true
   | some uid => w.userId == uid) &&
  (match q.exerciseType with
   | none => true
   | some t => w.exerciseType == t) &&
  (match q.intensity with
   | none => true
   | some i => w.intensity == i) &&
  (match q.completed with
   | none => true
   | some s => w.completed == (s == "true")) &&
  (match q.startDate with
   | none => true
   | some d => d ≤ w.workoutDate) &&
  (match q.endDate with
   | none => true
   | some d => w.workoutDate ≤ d)

/-! ## Query-parameter handling
(`validateQueryParams` in `src/middleware/validator.js`, applied by
`workoutRoutes.js` to `GET /api/v1/workouts` but not applied by
`userRoutes.js` to `GET /api/v1/users`, whose controller parses with
`parseInt(x) || default`). -/

/-- Longest leading digit run of a character list, as a number; `none` when
there is no leading digit. -/
def leadingDigits (cs : List Char) : Option Nat :=
  let ds := cs.takeWhile Char.isDigit
  if ds.isEmpty then none
  else some (ds.foldl (fun acc c => acc * 10 + (c.toNat - 48)) 0)

/-- Model of JavaScript `parseInt(s)` (radix 10): skips whitespace, reads an
optional sign and the longest digit prefix; `none` models `NaN`. -/
def jsParseInt (s : String) : Option Int :=
  match (jsTrim s).data with
  | '-' :: rest => (leadingDigits rest).map (fun n => -(n : Int))
  | '+' :: rest => (leadingDigits rest).map (fun n => (n : Int))
  | cs => (leadingDigits cs).map (fun n => (n : Int))

/-- `parseInt(x) || d`: the controllers' pagination fallback — `NaN` and `0`
both fall back to the default. -/
def jsParseIntOr (s : Option String) (d : Int) : Int :=
  match s with
  | none => d
  | some str =>
    match jsParseInt str with
    | none => d
    | some 0 => d
    | some n => n

/-- `page` check of `validateQueryParams`: an error is recorded when the
parameter is present and `parseInt` yields `NaN` or a value `< 1`. -/
def pageParamError (p : Option String) : Bool :=
  match p with
  | none => false
  | some s =>
    match jsParseInt s with
    | none => true
    | some n => decide (n < 1)

/-- `limit` check of `validateQueryParams`: an error is recorded when the
parameter is present and `parseInt` yields `NaN` or a value outside
`[1, 100]`. -/
def limitParamError (l : Option String) : Bool :=
  match l with
  | none => false
  | some s =>
    match jsParseInt s with
    | none => true
    | some n => decide (n < 1) || decide (n > 100)

/-- `order` check of `validateQueryParams`: only `asc`, `desc`, `1`, `-1`
are accepted when the parameter is present. -/
def orderParamError (o : Option String) : Bool :=
  match o with
  | none => false
  | some s => !(s == "asc" || s == "desc" || s == "1" || s == "-1")

/-- `validateQueryParams` passes (calls `next()`) iff no error was
recorded. -/
def validateQueryParams (page limit order : Option String) : Bool :=
  !(pageParamError page) && !(limitParamError limit) && !(orderParamError order)

/-- Outcome of a list request's pagination handling: a 400
`InvalidParameter` response, or the effective page and limit used. -/
inductive ListOutcome where
  | invalidParameter
  | ok (page limit : Int)
deriving DecidableEq

/-- `GET /api/v1/users` (`userRoutes.js`): no query-parameter validation
middleware is applied; `getAllUsers` computes
`page = parseInt(req.query.page) || 1` and
`limit = parseInt(req.query.limit) || 10`. -/
def handleUsersList (page limit : Option String) : ListOutcome :=
  .ok (jsParseIntOr page 1) (jsParseIntOr limit 10)

/-- `GET /api/v1/workouts` (`workoutRoutes.js`): `validateQueryParams` runs
first and sends a 400 on failure; otherwise `getAllWorkouts` computes the
same `parseInt(x) || default` pagination values. -/
def handleWorkoutsList (page limit order : Option String) : ListOutcome :=
  if validateQueryParams page limit order then
    .ok (jsParseIntOr page 1) (jsParseIntOr limit 10)
  else .invalidParameter

/-! ## Concrete scenario: create a user, then update one profile field -/

/-- `POST /api/v1/users` body with only the two required fields. -/
def frankReq : CreateUserReq := { name := "Frank", email := "frank@example.com" }

/-- `PUT /api/v1/users/1` body adding an age. -/
def ageUpdate : UserUpdate := { age := some 30 }

/-- The document `createUser` assembles for `frankReq` before the
`pre('save')` middleware runs. -/
def frankDoc : UserDoc :=
  { id := 1
    name := some (jsTrim "Frank")
    email := some (jsTrim (jsToLower "frank@example.com"))
    age := frankReq.age
    weight := frankReq.weight
    height := frankReq.height
    fitnessGoal := frankReq.fitnessGoal
    activityLevel := some "moderately_active"
    isActive := true
    profileCompletion := 0 }

/-- The store after creating Frank in an empty store. -/
def storeAfterCreate : Store := (createUser ⟨[], []⟩ 1 frankReq).2

/-- A user with `weight = 70` kg and `height = 175` cm. -/
def user70 : UserDoc := { id := 2, weight := some 70, height := some 175 }

/-- A stored workout owned by user 1, used in concrete scenarios. -/
def demoWorkout : WorkoutDoc :=
  { id := 10
    userId := 1
    title := "Morning run"
    exerciseType := "running"
    duration := 30
    caloriesBurned := 300
    intensity := "moderate"
    workoutDate := 1000
    completed := true }

/-- A newer, not-completed (planned) workout owned by user 1. -/
def plannedWorkout : WorkoutDoc :=
  { id := 11
    userId := 1
    title := "Planned ride"
    exerciseType := "cycling"
    duration := 60
    caloriesBurned := 500
    intensity := "high"
    workoutDate := 1500
    completed := false }

/-! ## Bridging lemmas -/

/-- Bridge from the computable `jsFloor` to Mathlib's `Int.floor`. -/
theorem jsFloor_eq_intFloor (x : ℚ) : jsFloor x = ⌊x⌋ := by
  rw [jsFloor, Rat.floor_def, Rat.floor_def']

/-- Bridge from the computable `jsRound` to Mathlib's `Int.floor`. -/
theorem jsRound_eq_intFloor (x : ℚ) : jsRound x = ⌊x + 1/2⌋ := by
  rw [jsRound, jsFloor_eq_intFloor]

/-- Bridge from the computable `jsCeil` to Mathlib's `Int.ceil`. -/
theorem jsCeil_eq_intCeil (x : ℚ) : jsCeil x = ⌈x⌉ := by
  rw [jsCeil, jsFloor_eq_intFloor, ← Int.ceil_neg, neg_neg]

/-- The rational ceiling of `t / l` agrees with the natural-number ceiling
division `(t + l - 1) / l` for positive `l`. -/
theorem jsCeil_natCast_div (t l : ℕ) (hl : 1 ≤ l) :
    jsCeil ((t : ℚ) / (l : ℚ)) = (((t + l - 1) / l : ℕ) : ℤ) := by
  have hlq : (0 : ℚ) < (l : ℚ) := by exact_mod_cast hl
  rw [jsCeil_eq_intCeil]
  rcases Nat.eq_zero_or_pos t with rfl | ht
  · rw [show (0 + l - 1) / l = 0 from Nat.div_eq_of_lt (by omega)]
    simp
  · obtain ⟨t', rfl⟩ : ∃ t'', t = t'' + 1 := ⟨t - 1, by omega⟩
    rw [show (t' + 1 + l - 1) / l = (t' + l) / l by congr 1; omega]
    set z := (t' + l) / l with hzdef
    have hz1 : z * l ≤ t' + l := Nat.div_mul_le_self _ _
    have hz2 : t' + 1 ≤ z * l := by
      have h : t' + l < (z + 1) * l :=
        (Nat.div_lt_iff_lt_mul hl).mp (by omega)
      rw [Nat.add_mul, Nat.one_mul] at h
      exact Nat.succ_le_of_lt (Nat.lt_of_add_lt_add_right h)
    have hq1 : (z : ℚ) * l ≤ (t' : ℚ) + l := by exact_mod_cast hz1
    have hq2 : (t' : ℚ) + 1 ≤ (z : ℚ) * l := by exact_mod_cast hz2
    rw [Int.ceil_eq_iff]
    constructor
    · rw [lt_div_iff₀ hlq]
      push_cast
      linarith
    · rw [div_le_iff₀ hlq]
      push_cast
      linarith

/-! ## C1 -/

/-- C1: for every paginated list response with `1 ≤ limit ≤ 100` and
`page ≥ 1`, the metadata satisfies `totalPages = ceil(total/limit)`,
`hasNextPage = (page < totalPages)`, `hasPrevPage = (page > 1)`,
`nextPage = page + 1` when there is a next page and `null` otherwise, and
`prevPage = page - 1` when there is a previous page and `null` otherwise. -/
theorem sendPaginated_meta_correct (page limit total : ℕ)
    (_hpage : 1 ≤ page) (hlimit1 : 1 ≤ limit) (_hlimit100 : limit ≤ 100) :
    (sendPaginated (page : ℤ) (limit : ℤ) total).totalPages
        = (((total + limit - 1) / limit : ℕ) : ℤ) ∧
    (sendPaginated (page : ℤ) (limit : ℤ) total).hasNextPage
        = decide (page < (total + limit - 1) / limit) ∧
    (sendPaginated (page : ℤ) (limit : ℤ) total).hasPrevPage
        = decide (1 < page) ∧
    (sendPaginated (page : ℤ) (limit : ℤ) total).nextPage
        = (if page < (total + limit - 1) / limit then some ((page : ℤ) + 1) else none) ∧
    (sendPaginated (page : ℤ) (limit : ℤ) total).prevPage
        = (if 1 < page then some ((page : ℤ) - 1) else none) := by
  have hceil := jsCeil_natCast_div total limit hlimit1
  refine ⟨?_, ?_, ?_, ?_, ?_⟩ <;>
    simp only [sendPaginated, Int.cast_natCast, hceil, decide_eq_decide,
      decide_eq_true_eq, Nat.cast_lt, gt_iff_lt, Nat.one_lt_cast]

/-- Witness for C1 at `page = 2`, `limit = 10`, `total = 25`. -/
theorem sendPaginated_meta_correct_witness :
    (sendPaginated 2 10 25).totalPages = 3 ∧
    (sendPaginated 2 10 25).hasNextPage = true ∧
    (sendPaginated 2 10 25).hasPrevPage = true ∧
    (sendPaginated 2 10 25).nextPage = some 3 ∧
    (sendPaginated 2 10 25).prevPage = some 1 := by
  have h := sendPaginated_meta_correct 2 10 25 (by norm_num) (by norm_num) (by norm_num)
  norm_num at h
  exact h

/-! ## C2 -/

/-- C2 counterexample: with `totalItems = 0`, `page = 2`, `limit = 10`, the
pagination metadata has `hasPrevPage = true`, not `false` as claimed. -/
theorem sendPaginated_zeroTotal_prevPage_cex :
    (sendPaginated 2 10 0).totalItems = 0 ∧
    (sendPaginated 2 10 0).hasPrevPage = true := ⟨rfl, rfl⟩

/-- C2 (amended): for `totalItems = 0`, `page ≥ 1` and `limit ≥ 1`, the
metadata has `totalPages = 0` and `hasNextPage = false` (no error is
raised); `hasPrevPage`, however, is `page > 1`, so it is `false` only when
`page = 1`. -/
theorem sendPaginated_zeroTotal (page limit : ℤ)
    (hpage : 1 ≤ page) (_hlimit : 1 ≤ limit) :
    (sendPaginated page limit 0).totalPages = 0 ∧
    (sendPaginated page limit 0).hasNextPage = false ∧
    (sendPaginated page limit 0).hasPrevPage = decide (1 < page) := by
  have hzero : jsCeil (0 : ℚ) = 0 := by
    rw [jsCeil_eq_intCeil]
    simp
  refine ⟨?_, ?_, ?_⟩
  · simp [sendPaginated, hzero]
  · simp only [sendPaginated, Nat.cast_zero, zero_div, hzero]
    simp only [decide_eq_false_iff_not, not_lt]
    omega
  · simp [sendPaginated, gt_iff_lt]

/-- Witness for C2 (amended) at `page = 2`, `limit = 10`. -/
theorem sendPaginated_zeroTotal_witness :
    (sendPaginated 2 10 0).totalPages = 0 ∧
    (sendPaginated 2 10 0).hasNextPage = false ∧
    (sendPaginated 2 10 0).hasPrevPage = true := by
  have h := sendPaginated_zeroTotal 2 10 (by norm_num) (by norm_num)
  norm_num at h
  exact h

/-! ## C3 -/

/-- C3 counterexample: `GET /api/v1/users?page=0` does not fail with
`InvalidParameter`; the Users list route applies no query-parameter
validation and the controller silently defaults `page` to 1. -/
theorem usersList_page_zero_not_rejected_cex :
    handleUsersList (some "0") none = ListOutcome.ok 1 10 ∧
    handleUsersList (some "0") none ≠ ListOutcome.invalidParameter := by
  exact ⟨by decide, by decide⟩

/-- C3 (amended): only the Workouts list operation validates its pagination
query parameters — a `page` that parses below 1 or to `NaN`, or a `limit`
that parses outside `[1, 100]` or to `NaN`, fails with `InvalidParameter`,
and the boundary values `limit = 1` and `limit = 100` both succeed. The
Users list operation applies no such validation: it never returns
`InvalidParameter` and instead silently defaults (`parseInt(x) || default`),
e.g. `page=0` becomes page 1 and `limit=101` is used as given. -/
theorem listQueryValidation_split :
    (∀ p l : Option String, handleUsersList p l ≠ ListOutcome.invalidParameter) ∧
    (∀ s : String, jsParseInt s = none →
      handleWorkoutsList (some s) none none = ListOutcome.invalidParameter) ∧
    (∀ (s : String) (n : Int), jsParseInt s = some n → n < 1 →
      handleWorkoutsList (some s) none none = ListOutcome.invalidParameter) ∧
    (∀ (s : String) (n : Int), jsParseInt s = some n → (n < 1 ∨ 100 < n) →
      handleWorkoutsList none (some s) none = ListOutcome.invalidParameter) ∧
    handleWorkoutsList none (some "1") none = ListOutcome.ok 1 1 ∧
    handleWorkoutsList none (some "100") none = ListOutcome.ok 1 100 ∧
    handleUsersList (some "0") (some "101") = ListOutcome.ok 1 101 := by
  refine ⟨?_, ?_, ?_, ?_, by decide, by decide, by decide⟩
  · intro p l h
    exact ListOutcome.noConfusion h
  · intro s hs
    simp [handleWorkoutsList, validateQueryParams, pageParamError,
      limitParamError, orderParamError, hs]
  · intro s n hs hn
    simp [handleWorkoutsList, validateQueryParams, pageParamError,
      limitParamError, orderParamError, hs, hn]
  · intro s n hs hn
    rcases hn with hn | hn <;>
      simp [handleWorkoutsList, validateQueryParams, pageParamError,
        limitParamError, orderParamError, hs, hn]

/-- Witness for C3 (amended): `page=0` and `limit=101` on the Workouts list,
and `page=0` on the Users list. -/
theorem listQueryValidation_split_witness :
    handleWorkoutsList (some "0") none none = ListOutcome.invalidParameter ∧
    handleWorkoutsList none (some "101") none = ListOutcome.invalidParameter ∧
    handleUsersList (some "0") none ≠ ListOutcome.invalidParameter := by
  refine ⟨?_, ?_, ?_⟩
  · exact listQueryValidation_split.2.2.1 "0" 0 (by decide) (by decide)
  · exact listQueryValidation_split.2.2.2.1 "101" 101 (by decide) (Or.inr (by decide))
  · exact listQueryValidation_split.1 (some "0") none

/-! ## C4 -/

/-- Closed form of the `pre('save')` completion computation:
`Math.round(c/7*100) = (200c + 7) / 14` in natural-number division. -/
theorem preSaveCompletion_eq (u : UserDoc) :
    preSaveCompletion u = (((200 * completedFieldsCount u + 7) / 14 : ℕ) : ℤ) := by
  rw [preSaveCompletion, jsRound_eq_intFloor]
  have h1 : ((completedFieldsCount u : ℚ) / 7) * 100 + 1/2
      = (((200 * completedFieldsCount u + 7 : ℕ) : ℤ) : ℚ) / ((14 : ℕ) : ℚ) := by
    push_cast
    ring
  rw [h1, Rat.floor_intCast_div_natCast]
  norm_cast

/-- C4 (code bug): `updateUser` persists through `findByIdAndUpdate`, which
does not run the `pre('save')` middleware, so a partial-field update leaves
`profileCompletion` stale. Creating a user with 3 truthy profile fields
stores `round(3/7*100) = 43`; after updating `age` the user has 4 truthy
fields, so the documented formula demands `round(4/7*100) = 57`, but the
stored value is still 43. -/
theorem profileCompletion_stale_after_update :
    ∃ (u' : UserDoc) (s' : Store),
      updateUser storeAfterCreate 1 ageUpdate = (.updated u', s') ∧
      completedFieldsCount u' = 4 ∧
      preSaveCompletion u' = 57 ∧
      u'.profileCompletion = 43 := by
  refine ⟨_, _, rfl, ?_, ?_, ?_⟩
  · decide
  · rw [preSaveCompletion_eq]
    decide
  · show preSaveCompletion frankDoc = 43
    rw [preSaveCompletion_eq]
    decide

/-! ## C5 -/

/-- C5: creating a Workout whose `userId` does not resolve to an existing
User throws `AppError(404)` (NotFound), and the store — in particular the
Workout collection — is unchanged. -/
theorem createWorkout_missing_user_rejected
    (s : Store) (newId : Nat) (now : Int) (r : CreateWorkoutReq)
    (h : findUserById s r.userId = none) :
    createWorkout s newId now r =
      (.error ⟨"User not found. Cannot create workout for non-existent user.", 404⟩, s) := by
  simp only [createWorkout, h]

/-- Witness for C5: a store containing only user 1, and a workout request
for user 2. -/
theorem createWorkout_missing_user_rejected_witness :
    createWorkout ⟨[{ id := 1 }], []⟩ 5 1000
        { userId := 2, title := "Evening run", exerciseType := "running",
          duration := 30, caloriesBurned := 300 } =
      (.error ⟨"User not found. Cannot create workout for non-existent user.", 404⟩,
       ⟨[{ id := 1 }], []⟩) :=
  createWorkout_missing_user_rejected ⟨[{ id := 1 }], []⟩ 5 1000 _ (by decide)

/-! ## C6 -/

/-- C6: deleting a User who owns at least one Workout responds 409
(Conflict) and leaves the store — both the User and all Workout records —
unchanged. -/
theorem deleteUser_with_workouts_conflict
    (s : Store) (id : Nat) (u : UserDoc)
    (hu : findUserById s id = some u)
    (hw : 0 < (s.workouts.filter (fun w => w.userId == id)).length) :
    deleteUser s id =
      (.conflict (s.workouts.filter (fun w => w.userId == id)).length, s) ∧
    deleteUserStatus (deleteUser s id).1 = 409 := by
  have h1 : deleteUser s id =
      (.conflict (s.workouts.filter (fun w => w.userId == id)).length, s) := by
    simp only [deleteUser, hu]
    rw [if_pos hw]
  exact ⟨h1, by rw [h1]; rfl⟩

/-- Witness for C6: user 1 owns one workout; deletion is refused with 409
and the store is returned unchanged. -/
theorem deleteUser_with_workouts_conflict_witness :
    deleteUser ⟨[{ id := 1 }], [demoWorkout]⟩ 1 =
      (.conflict 1, ⟨[{ id := 1 }], [demoWorkout]⟩) ∧
    deleteUserStatus (deleteUser ⟨[{ id := 1 }], [demoWorkout]⟩ 1).1 = 409 := by
  have h := deleteUser_with_workouts_conflict ⟨[{ id := 1 }], [demoWorkout]⟩ 1
    { id := 1 } (by decide) (by decide)
  exact ⟨h.1.trans (by decide), h.2⟩

/-! ## C7 -/

/-- C7 counterexample: for weight 70 kg and height 175 cm the bmi is 22.9
(below 25), but `bmiCategory` is the string `'Normal weight'`, not `'Normal'`
as the claim names it. -/
theorem bmiCategory_normal_weight_cex :
    bmi user70 = some (229/10) ∧
    ((229 : ℚ)/10) < 25 ∧
    bmiCategory user70 = some "Normal weight" ∧
    (some "Normal weight" : Option String) ≠ some "Normal" := by
  have hval : jsRound ((70 : ℚ) / (175/100 * (175/100)) * 10) = 229 := by
    rw [jsRound_eq_intFloor]
    norm_num
  have hbmi : bmi user70 = some ((229 : ℚ)/10) := by
    simp only [bmi, user70, truthyQ, Option.getD_some, hval]
    norm_num
  refine ⟨hbmi, by norm_num, ?_, by decide⟩
  rw [bmiCategory, hbmi]
  norm_num

/-- C7 (amended): `bmi` is `weight / (height/100)²` rounded to one decimal
and both `bmi` and `bmiCategory` are `null` when weight or height is
missing; for schema-valid weights and heights the category thresholds are
`< 18.5` Underweight, `< 25` `'Normal weight'` (the source string, not
`'Normal'`), `< 30` Overweight, else Obese. -/
theorem bmi_and_category_correct :
    (∀ u : UserDoc, u.weight = none ∨ u.height = none →
      bmi u = none ∧ bmiCategory u = none) ∧
    (∀ (u : UserDoc) (w h : ℚ), u.weight = some w → u.height = some h →
      20 ≤ w → 50 ≤ h → h ≤ 300 →
      bmi u = some ((jsRound (w / (h/100 * (h/100)) * 10) : ℚ) / 10) ∧
      ∃ b : ℚ, bmi u = some b ∧ 0 < b ∧
        bmiCategory u = some
          (if b < 37/2 then "Underweight"
           else if b < 25 then "Normal weight"
           else if b < 30 then "Overweight"
           else "Obese")) := by
  constructor
  · intro u hmiss
    have h1 : bmi u = none := by
      rcases hmiss with h | h <;> simp [bmi, h, truthyQ]
    exact ⟨h1, by simp [bmiCategory, h1]⟩
  · intro u w h hw hh h20 h50 h300
    have hwpos : (0 : ℚ) < w := by linarith
    have hhpos : (0 : ℚ) < h := by linarith
    have hsq : (0 : ℚ) < h/100 * (h/100) := by positivity
    have hbmi : bmi u = some ((jsRound (w / (h/100 * (h/100)) * 10) : ℚ) / 10) := by
      simp [bmi, hw, hh, truthyQ, hwpos.ne', hhpos.ne']
    have hxge : (1 : ℚ)/2 ≤ w / (h/100 * (h/100)) * 10 := by
      rw [div_mul_eq_mul_div, le_div_iff₀ hsq]
      nlinarith
    have hround : 1 ≤ jsRound (w / (h/100 * (h/100)) * 10) := by
      rw [jsRound_eq_intFloor]
      exact Int.le_floor.mpr (by push_cast; linarith)
    have hbpos : (0 : ℚ) < (jsRound (w / (h/100 * (h/100)) * 10) : ℚ) / 10 := by
      apply div_pos ?_ (by norm_num)
      have : (1 : ℚ) ≤ (jsRound (w / (h/100 * (h/100)) * 10) : ℚ) := by
        exact_mod_cast hround
      linarith
    refine ⟨hbmi, ⟨_, hbmi, hbpos, ?_⟩⟩
    simp only [bmiCategory, hbmi]
    rw [if_neg hbpos.ne']
    split_ifs <;> rfl

/-- Witness for C7 (amended): the missing-weight case and the
weight 70 / height 175 case. -/
theorem bmi_and_category_correct_witness :
    bmi { id := 3 } = none ∧ bmiCategory { id := 3 } = none ∧
    bmi user70 = some ((jsRound ((70 : ℚ) / (175/100 * (175/100)) * 10) : ℚ) / 10) := by
  have h1 := bmi_and_category_correct.1 { id := 3 } (Or.inl rfl)
  have h2 := (bmi_and_category_correct.2 user70 70 175 rfl rfl
    (by norm_num) (by norm_num) (by norm_num)).1
  exact ⟨h1.1, h1.2, h2⟩

/-! ## C8 -/

/-- The aggregation result in closed form: count, calorie sum and duration
sum over the user's completed workouts (both branches of the
`result[0] || default` fallback agree with these formulas). -/
theorem getTotalCaloriesByUser_eq (ws : List WorkoutDoc) (uid : Nat) :
    getTotalCaloriesByUser ws uid =
      ⟨((ws.filter (fun w => w.userId == uid && w.completed)).map
          (fun w => w.caloriesBurned)).sum,
       (ws.filter (fun w => w.userId == uid && w.completed)).length,
       ((ws.filter (fun w => w.userId == uid && w.completed)).map
          (fun w => w.duration)).sum⟩ := by
  rw [getTotalCaloriesByUser]
  split
  next hemp =>
    rw [List.isEmpty_iff] at hemp
    rw [hemp]
    rfl
  next hemp => rfl

/-- C8: for an existing user whose completed-workout set is empty,
`getUserStats` succeeds with `totalWorkouts = 0`, `totalCalories = 0` and
both per-workout averages equal to `0` (the zero-count guard, not NaN). -/
theorem getUserStats_zero_completed_workouts
    (s : Store) (uid : Nat) (now : Int) (u : UserDoc)
    (hu : findUserById s uid = some u)
    (hzero : s.workouts.filter (fun w => w.userId == uid && w.completed) = []) :
    ∃ st : UserStats, getUserStats s uid now = some st ∧
      st.totalWorkouts = 0 ∧ st.totalCalories = 0 ∧
      st.avgCaloriesPerWorkout = 0 ∧ st.avgDurationPerWorkout = 0 := by
  have ht : getTotalCaloriesByUser s.workouts uid = ⟨0, 0, 0⟩ := by
    rw [getTotalCaloriesByUser_eq, hzero]
    rfl
  simp only [getUserStats, hu]
  refine ⟨_, rfl, ?_, ?_, ?_, ?_⟩ <;> simp [ht]

/-- Witness for C8: user 1 exists and owns one workout, which is not
completed. -/
theorem getUserStats_zero_completed_workouts_witness :
    ∃ st : UserStats,
      getUserStats ⟨[{ id := 1 }], [plannedWorkout]⟩ 1 2000 = some st ∧
      st.totalWorkouts = 0 ∧ st.totalCalories = 0 ∧
      st.avgCaloriesPerWorkout = 0 ∧ st.avgDurationPerWorkout = 0 :=
  getUserStats_zero_completed_workouts ⟨[{ id := 1 }], [plannedWorkout]⟩ 1 2000
    { id := 1 } (by decide) (by decide)

/-! ## C9 -/

/-- Membership in an ordered insertion. -/
theorem mem_insertByDateDesc {y w : WorkoutDoc} {l : List WorkoutDoc} :
    y ∈ insertByDateDesc w l ↔ y = w ∨ y ∈ l := by
  induction l with
  | nil => simp [insertByDateDesc]
  | cons x xs ih =>
    rw [insertByDateDesc]
    split
    · simp only [List.mem_cons, ih]
      tauto
    · simp only [List.mem_cons]

/-- Ordered insertion preserves the descending-date invariant. -/
theorem pairwise_insertByDateDesc (w : WorkoutDoc) (l : List WorkoutDoc)
    (hl : List.Pairwise (fun a b => b.workoutDate ≤ a.workoutDate) l) :
    List.Pairwise (fun a b => b.workoutDate ≤ a.workoutDate)
      (insertByDateDesc w l) := by
  induction l with
  | nil => simp [insertByDateDesc]
  | cons x xs ih =>
    rw [List.pairwise_cons] at hl
    rw [insertByDateDesc]
    split
    next hge =>
      rw [List.pairwise_cons]
      refine ⟨?_, ih hl.2⟩
      intro y hy
      rcases mem_insertByDateDesc.mp hy with rfl | hy
      · exact hge
      · exact hl.1 y hy
    next hlt =>
      rw [List.pairwise_cons]
      refine ⟨?_, List.pairwise_cons.mpr hl⟩
      intro y hy
      rcases List.mem_cons.mp hy with rfl | hy
      · exact le_of_lt (lt_of_not_ge hlt)
      · exact le_trans (hl.1 y hy) (le_of_lt (lt_of_not_ge hlt))

/-- The sorted list is in descending `workoutDate` order. -/
theorem sortByDateDesc_pairwise (ws : List WorkoutDoc) :
    List.Pairwise (fun a b => b.workoutDate ≤ a.workoutDate)
      (sortByDateDesc ws) := by
  rw [sortByDateDesc]
  induction ws with
  | nil => simp
  | cons x xs ih => exact pairwise_insertByDateDesc x _ ih

/-- Ordered insertion is a permutation of consing. -/
theorem insertByDateDesc_perm (w : WorkoutDoc) (l : List WorkoutDoc) :
    List.Perm (insertByDateDesc w l) (w :: l) := by
  induction l with
  | nil => simp [insertByDateDesc]
  | cons x xs ih =>
    rw [insertByDateDesc]
    split
    · exact (ih.cons x).trans (List.Perm.swap w x xs)
    · exact List.Perm.refl _

/-- Sorting permutes the workouts; nothing is added or dropped. -/
theorem sortByDateDesc_perm (ws : List WorkoutDoc) :
    List.Perm (sortByDateDesc ws) ws := by
  rw [sortByDateDesc]
  induction ws with
  | nil => exact List.Perm.refl _
  | cons x xs ih => exact (insertByDateDesc_perm x _).trans (ih.cons x)

/-- C9: for an existing user, the `recent` list of `getUserStats` is the
first five of the user's workouts sorted by `workoutDate` descending — a
filter on `userId` only, ignoring `completed` — while every count and sum
(total workouts, calories, duration, 7-day and 30-day counts) ranges only
over workouts with `completed = true`. -/
theorem getUserStats_recent_vs_totals
    (s : Store) (uid : Nat) (now : Int) (u : UserDoc)
    (hu : findUserById s uid = some u) :
    ∃ st : UserStats, getUserStats s uid now = some st ∧
      st.recent =
        (sortByDateDesc (s.workouts.filter (fun w => w.userId == uid))).take 5 ∧
      List.Perm (sortByDateDesc (s.workouts.filter (fun w => w.userId == uid)))
        (s.workouts.filter (fun w => w.userId == uid)) ∧
      List.Pairwise (fun a b => b.workoutDate ≤ a.workoutDate) st.recent ∧
      st.totalWorkouts =
        (s.workouts.filter (fun w => w.userId == uid && w.completed)).length ∧
      st.totalCalories =
        ((s.workouts.filter (fun w => w.userId == uid && w.completed)).map
          (fun w => w.caloriesBurned)).sum ∧
      st.totalDuration =
        ((s.workouts.filter (fun w => w.userId == uid && w.completed)).map
          (fun w => w.duration)).sum ∧
      st.thisWeek =
        (s.workouts.filter (fun w =>
          w.userId == uid && now - 7 * dayMs ≤ w.workoutDate && w.completed)).length ∧
      st.thisMonth =
        (s.workouts.filter (fun w =>
          w.userId == uid && now - 30 * dayMs ≤ w.workoutDate && w.completed)).length := by
  simp only [getUserStats, hu]
  refine ⟨_, rfl, rfl, sortByDateDesc_perm _, ?_, ?_, ?_, ?_, rfl, rfl⟩
  · exact List.Pairwise.sublist (List.take_sublist 5 _) (sortByDateDesc_pairwise _)
  · rw [getTotalCaloriesByUser_eq]
  · rw [getTotalCaloriesByUser_eq]
  · rw [getTotalCaloriesByUser_eq]

/-- Witness for C9: user 1 owns a completed workout (date 1000) and a newer
planned one (date 1500); the planned workout leads the recent list but is
excluded from the counts. -/
theorem getUserStats_recent_vs_totals_witness :
    ∃ st : UserStats,
      getUserStats ⟨[{ id := 1 }], [demoWorkout, plannedWorkout]⟩ 1 2000 = some st ∧
      st.recent = [plannedWorkout, demoWorkout] ∧
      st.totalWorkouts = 1 ∧
      st.thisWeek = 1 := by
  obtain ⟨st, h1, hrec, _, _, htot, _, _, hweek, _⟩ :=
    getUserStats_recent_vs_totals ⟨[{ id := 1 }], [demoWorkout, plannedWorkout]⟩
      1 2000 { id := 1 } (by decide)
  refine ⟨st, h1, ?_, ?_, ?_⟩
  · rw [hrec]; decide
  · rw [htot]; decide
  · rw [hweek]; decide

/-! ## C10 -/

/-- C10: the boolean query filters coerce by string equality with `'true'`:
any other provided value — `'1'`, `'True'`, `'yes'`, … — makes the Users
filter select exactly the users with `isActive = false` and the Workouts
filter select exactly the workouts with `completed = false`, without
raising an error. -/
theorem boolean_filter_string_equality (s : String) (hs : s ≠ "true") :
    (∀ u : UserDoc, userMatchesFilter { isActive := some s } u = !u.isActive) ∧
    (∀ w : WorkoutDoc, workoutMatchesFilter { completed := some s } w = !w.completed) := by
  have hfalse : (s == "true") = false := by
    simp [hs]
  constructor
  · intro u
    simp only [userMatchesFilter, hfalse]
    cases u.isActive <;> rfl
  · intro w
    simp only [workoutMatchesFilter, hfalse]
    cases w.completed <;> rfl

/-- Witness for C10 at the values `'True'` and `'1'`. -/
theorem boolean_filter_string_equality_witness :
    userMatchesFilter { isActive := some "True" } { id := 1 } = false ∧
    userMatchesFilter { isActive := some "True" } { id := 1, isActive := false } = true ∧
    workoutMatchesFilter { completed := some "1" } demoWorkout = false := by
  have h1 := (boolean_filter_string_equality "True" (by decide)).1
  have h2 := (boolean_filter_string_equality "1" (by decide)).2
  refine ⟨?_, ?_, ?_⟩
  · rw [h1]
    rfl
  · rw [h1]
    rfl
  · rw [h2]
    rfl

end FitnessTracker
